import Mathlib

/-!
Verification of the SnapConnect voice-service telemetry component
(`voice-service/voice_debug_logger.py`) and the orchestrator skeleton
(`voice-service/main.py`).

The Python code is shallowly embedded: the mutable `VoiceDebugLogger`
object becomes an explicit `LoggerState` threaded through the
operations; every call to `time.time()` / `datetime.now()` becomes an
explicit rational parameter; Python floats are modelled as `ℚ`; the
per-channel `logging` sinks become an ordered list of emitted
`LogLine`s; the on-disk metrics snapshot (`json.dump(metrics, f, ...)`,
deterministic in the metrics value) is modelled as a filename-indexed
store of `Metrics` values, written by truncating `open(..., "w")`.
A Python call that raises is modelled by returning `some errMsg` in the
second component; the state component keeps exactly the mutations that
happened before the raise, since the underlying object survives the
exception.
-/

/-- Severity levels used by the `logging` module calls in the source. -/
inductive Lvl where
  | debug
  | info
  | warning
  | error
deriving DecidableEq, Repr

/-- The five named logger channels set up in `_setup_loggers`:
`voice_agent`, `pipeline`, `performance`, `api_calls`, `websocket`. -/
inductive Chan where
  | voice
  | pipeline
  | perf
  | api
  | ws
deriving DecidableEq, Repr

/-- One emitted log line: which channel, at which level, with which text. -/
structure LogLine where
  channel : Chan
  level : Lvl
  msg : String
deriving DecidableEq, Repr

/-- A Python value appearing inside a structured payload dict.  `str` and
`int` are JSON-serializable; `nonJson` stands for any object that
`json.dumps` rejects without a `default=` hook (its field is the `str()`
rendering that `default=str` would produce). -/
inductive PyVal where
  | str : String → PyVal
  | int : Int → PyVal
  | nonJson : String → PyVal
deriving DecidableEq, Repr

/-- A structured payload: a Python dict with string keys. -/
def PyDict := List (String × PyVal)
deriving DecidableEq, Repr

/-- A Python exception value: its class name and its message. -/
structure PyErr where
  ty : String
  msg : String
deriving DecidableEq, Repr

/-- The `error_info` dict built by `VoiceDebugLogger.log_error`
(context, error type name, message, timestamp, session id, and the
optional `additional_data`). -/
structure ErrorRecord where
  context : String
  error_type : String
  error_message : String
  timestamp : ℚ
  session_id : String
  additional_data : Option PyDict
deriving DecidableEq

/-- The `performance_metrics` dict initialized in
`VoiceDebugLogger.__init__`.  Its keys are fixed at construction; in
particular the only keys of the form `<x>_calls` are the three listed
here. -/
structure Metrics where
  session_start : ℚ
  total_requests : Nat
  successful_requests : Nat
  failed_requests : Nat
  average_response_time : ℚ
  response_times : List ℚ
  deepgram_calls : Nat
  openai_calls : Nat
  elevenlabs_calls : Nat
  websocket_connections : Nat
  errors : List ErrorRecord
deriving DecidableEq

/-- The whole logger object plus its observable effects: the metrics
dict, every log line emitted so far (in order), and the snapshot files
written so far (filename to last written metrics value). -/
structure LoggerState where
  session_id : String
  metrics : Metrics
  logs : List LogLine
  files : List (String × Metrics)
deriving DecidableEq

/-- Initial `performance_metrics` value from `__init__` (all counters 0,
empty sample and error lists, `session_start` set to the current time). -/
def initMetrics (t0 : ℚ) : Metrics where
  session_start := t0
  total_requests := 0
  successful_requests := 0
  failed_requests := 0
  average_response_time := 0
  response_times := []
  deepgram_calls := 0
  openai_calls := 0
  elevenlabs_calls := 0
  websocket_connections := 0
  errors := []

/-- A fresh `VoiceDebugLogger`right after `__init__`. -/
def initLogger (sid : String) (t0 : ℚ) : LoggerState where
  session_id := sid
  metrics := initMetrics t0
  logs := []
  files := []

/-- Emit one line on a channel (a `logger.<level>(msg)` call). -/
def addLog (st : LoggerState) (c : Chan) (l : Lvl) (m : String) : LoggerState :=
  { st with logs := st.logs ++ [⟨c, l, m⟩] }

/-- Write-mode file open plus `json.dump`: the new content replaces any
earlier content under the same name (truncate, not append). -/
def writeFile (fs : List (String × Metrics)) (name : String) (m : Metrics) :
    List (String × Metrics) :=
  (name, m) :: fs.filter (fun p => p.1 ≠ name)

/-- `str.lower()` on a service name (ASCII case folding, which covers the
service identifiers used by this program), mapped over the string's
characters. -/
def pyLower (s : String) : String := ⟨s.data.map Char.toLower⟩

/-- `json.dumps` on one dict value.  Without the `default=str` hook a
non-serializable object raises `TypeError` (modelled as `none`); with
`default=str` it is replaced by its `str()` rendering. -/
def dumpsVal (useDefault : Bool) : PyVal → Option String
  | .str s => some ("\x22" ++ s ++ "\x22")
  | .int n => some (toString n)
  | .nonJson r => if useDefault then some ("\x22" ++ r ++ "\x22") else none

/-- `json.dumps` on the entries of a dict, in insertion order. -/
def dumpsEntries (useDefault : Bool) : List (String × PyVal) → Option String
  | [] => some ""
  | (k, v) :: rest =>
    match dumpsVal useDefault v, dumpsEntries useDefault rest with
    | some sv, some sr => some ("\x22" ++ k ++ "\x22: " ++ sv ++ ", " ++ sr)
    | _, _ => none

/-- `json.dumps` on a whole dict. -/
def dumpsDict (useDefault : Bool) (d : PyDict) : Option String :=
  (dumpsEntries useDefault d).map (fun s => "\x7b" ++ s ++ "\x7d")

/-- Serializability of one payload value (no `default=` hook). -/
def serializableVal : PyVal → Bool
  | .str _ => true
  | .int _ => true
  | .nonJson _ => false

/-- Serializability of a whole payload dict (no `default=` hook). -/
def dictSerializable (d : PyDict) : Bool :=
  d.all (fun kv => serializableVal kv.2)

/-- Python truthiness of an optional dict argument (`if data:`):
`None` and the empty dict are falsy. -/
def truthyDict : Option PyDict → Bool
  | none => false
  | some d => !d.isEmpty

/-- `VoiceDebugLogger.log_session_start(config)`: two info lines on the
primary (`voice_agent`) channel — the banner and the configuration dump
via `json.dumps(config, indent=2)`, which has no `default=` hook and so
raises `TypeError` on a non-serializable config (before `session_start`
is reset) — then `performance_metrics["session_start"] = time.time()`. -/
def log_session_start (st : LoggerState) (config : PyDict) (now : ℚ) :
    LoggerState × Option String :=
  let st1 := addLog st .voice .info
    ("Starting Coach Alex Voice Session: " ++ st.session_id)
  match dumpsDict false config with
  | none => (st1, some "TypeError: Object is not JSON serializable")
  | some s =>
    let st2 := addLog st1 .voice .info ("Configuration: " ++ s)
    ({ st2 with metrics := { st2.metrics with session_start := now } }, none)

/-- The fixed block of ten `performance.log` info lines emitted by
`_log_performance_summary`, rendered from the metrics dict after the
average has been recomputed. -/
def summaryLines (m : Metrics) (session_duration : ℚ) : List LogLine :=
  [ ⟨.perf, .info, "Performance Summary:"⟩,
    ⟨.perf, .info, "   Session Duration: " ++ (toString session_duration ++ "s")⟩,
    ⟨.perf, .info, "   Total Requests: " ++ toString m.total_requests⟩,
    ⟨.perf, .info, "   Success Rate: " ++ (toString m.successful_requests ++
      ("/" ++ toString m.total_requests))⟩,
    ⟨.perf, .info, "   Average Response Time: " ++
      (toString m.average_response_time ++ "s")⟩,
    ⟨.perf, .info, "   Deepgram Calls: " ++ toString m.deepgram_calls⟩,
    ⟨.perf, .info, "   OpenAI Calls: " ++ toString m.openai_calls⟩,
    ⟨.perf, .info, "   ElevenLabs Calls: " ++ toString m.elevenlabs_calls⟩,
    ⟨.perf, .info, "   WebSocket Connections: " ++ toString m.websocket_connections⟩,
    ⟨.perf, .info, "   Errors: " ++ toString m.errors.length⟩ ]

/-- `VoiceDebugLogger._log_performance_summary`: if the sample list is
non-empty, assign `average_response_time := sum / len` (otherwise the
stored value is kept untouched); emit the summary block; then write the
snapshot file `metrics_<session_id>.json` with the full metrics dict
(`json.dump(..., default=str)`, which never raises). -/
def log_performance_summary (st : LoggerState) (now : ℚ) : LoggerState :=
  let m := st.metrics
  let dur := now - m.session_start
  let m1 := if m.response_times = [] then m
    else { m with average_response_time :=
      m.response_times.sum / (m.response_times.length : ℚ) }
  let st1 := { st with
    metrics := m1
    logs := st.logs ++ summaryLines m1 dur }
  { st1 with files :=
      writeFile st1.files ("metrics_" ++ (st.session_id ++ ".json")) m1 }

/-- `VoiceDebugLogger.log_session_end`: one info line with the session
duration, then the performance summary. -/
def log_session_end (st : LoggerState) (now : ℚ) : LoggerState :=
  let dur := now - st.metrics.session_start
  log_performance_summary
    (addLog st .voice .info
      ("Voice session ended after " ++ (toString dur ++ " seconds"))) now

/-- The `performance_metrics[f"<service.lower()>_calls"] += 1` update in
`log_api_call`.  The metrics dict owns exactly three `_calls` keys
(`deepgram_calls`, `openai_calls`, `elevenlabs_calls`); indexing with any
other key raises `KeyError`, modelled as `none`. -/
def incServiceCounter (m : Metrics) (serviceLower : String) : Option Metrics :=
  if serviceLower = "deepgram" then
    some { m with deepgram_calls := m.deepgram_calls + 1 }
  else if serviceLower = "openai" then
    some { m with openai_calls := m.openai_calls + 1 }
  else if serviceLower = "elevenlabs" then
    some { m with elevenlabs_calls := m.elevenlabs_calls + 1 }
  else none

/-- The `if details:` block of `log_api_call`: when `details` is truthy it
is dumped with `default=str` on the api channel at debug level.  The
second component is `false` when the dump would raise (it cannot, since
`default=str` is total; the branch is kept to mirror the call shape). -/
def apiDetailsLogged (st : LoggerState) (details : Option PyDict) :
    LoggerState × Bool :=
  match details with
  | none => (st, true)
  | some d =>
    if d.isEmpty then (st, true)
    else
      match dumpsDict true d with
      | none => (st, false)
      | some s => (addLog st .api .debug ("Details: " ++ s), true)

/-- `VoiceDebugLogger.log_api_call(service, method, duration, success,
details)`: one api info line, an optional api debug details line, then
the metric updates in source order — per-service counter (which raises
`KeyError` for a service whose lowercased name is not a pre-initialized
counter key, leaving the remaining updates unexecuted), append the
duration to `response_times`, and bump the success or failure counter. -/
def apiMsg (service method : String) (duration : ℚ) (success : Bool) :
    String :=
  (if success then "OK" else "FAIL") ++ (" " ++ (service ++ ("." ++ (method ++
    (" took " ++ (toString duration ++ "s"))))))

def log_api_call (st : LoggerState) (service method : String) (duration : ℚ)
    (success : Bool) (details : Option PyDict) : LoggerState × Option String :=
  let st1 := addLog st .api .info (apiMsg service method duration success)
  match apiDetailsLogged st1 details with
  | (st2, false) => (st2, some "TypeError: Object is not JSON serializable")
  | (st2, true) =>
    match incServiceCounter st2.metrics (pyLower service) with
    | none => (st2, some ("KeyError: " ++ (pyLower service ++ "_calls")))
    | some m1 =>
      let m2 := { m1 with response_times := m1.response_times ++ [duration] }
      let m3 := if success then
          { m2 with successful_requests := m2.successful_requests + 1 }
        else
          { m2 with failed_requests := m2.failed_requests + 1 }
      ({ st2 with metrics := m3 }, none)

/-- `VoiceDebugLogger.log_pipeline_event(event, data)`: one pipeline info
line and, when `data` is truthy, a pipeline debug line dumped with
`default=str` (so the dump never raises). -/
def log_pipeline_event (st : LoggerState) (event : String)
    (data : Option PyDict) : LoggerState × Option String :=
  let st1 := addLog st .pipeline .info ("Pipeline: " ++ event)
  if truthyDict data then
    match dumpsDict true ((data.getD [])) with
    | none => (st1, some "TypeError: Object is not JSON serializable")
    | some s => (addLog st1 .pipeline .debug ("Data: " ++ s), none)
  else (st1, none)

/-- The `f" [{client_info}]" if client_info else ""` fragment of
`log_websocket_event`. -/
def clientTag : Option String → String
  | some c => " [" ++ (c ++ "]")
  | none => ""

/-- `VoiceDebugLogger.log_websocket_event(event, client_info, data)`: one
websocket info line, an optional debug data line (`default=str`, never
raises), and the connection counter incremented exactly when the event
label is the literal `"connection_established"`. -/
def log_websocket_event (st : LoggerState) (event : String)
    (client_info : Option String) (data : Option PyDict) :
    LoggerState × Option String :=
  let st1 := addLog st .ws .info
    ("WebSocket" ++ (clientTag client_info ++ (": " ++ event)))
  let dumped : Option LoggerState :=
    if truthyDict data then
      (dumpsDict true (data.getD [])).map
        (fun s => addLog st1 .ws .debug ("Data: " ++ s))
    else some st1
  match dumped with
  | none => (st1, some "TypeError: Object is not JSON serializable")
  | some st2 =>
    if event = "connection_established" then
      ({ st2 with metrics := { st2.metrics with
          websocket_connections := st2.metrics.websocket_connections + 1 } }, none)
    else (st2, none)

/-- The `error_info` dict as built at the top of `log_error`: the five
fixed string/timestamp fields, plus `additional_data` exactly when that
argument is truthy. -/
def mkErrorRecord (err : PyErr) (context : String) (sid : String) (now : ℚ)
    (additional_data : Option PyDict) : ErrorRecord where
  context := context
  error_type := err.ty
  error_message := err.msg
  timestamp := now
  session_id := sid
  additional_data := if truthyDict additional_data then additional_data else none

/-- `json.dumps(error_info, indent=2)` — no `default=` hook.  The five
fixed fields are strings and always serialize; the dump raises exactly
when an attached `additional_data` dict holds a non-serializable value. -/
def dumpsErrorInfo (i : ErrorRecord) : Option String :=
  let base := "\x22context\x22: \x22" ++ (i.context ++
    ("\x22, \x22error_type\x22: \x22" ++ (i.error_type ++
    ("\x22, \x22error_message\x22: \x22" ++ (i.error_message ++
    ("\x22, \x22timestamp\x22: \x22" ++ (toString i.timestamp ++
    ("\x22, \x22session_id\x22: \x22" ++ (i.session_id ++ "\x22")))))))))
  match i.additional_data with
  | none => some ("\x7b" ++ (base ++ "\x7d"))
  | some d =>
    (dumpsDict false d).map
      (fun s => "\x7b" ++ (base ++ (", \x22additional_data\x22: " ++ (s ++ "\x7d"))))

/-- `VoiceDebugLogger.log_error(error, context, additional_data)`: builds
the error record, emits the short error line, then the full structured
dump (which raises `TypeError` before the record is appended to
`performance_metrics["errors"]` if `additional_data` is truthy and not
serializable), and finally appends the record. -/
def log_error (st : LoggerState) (err : PyErr) (context : String)
    (additional_data : Option PyDict) (now : ℚ) : LoggerState × Option String :=
  let info := mkErrorRecord err context st.session_id now additional_data
  let st1 := addLog st .voice .error
    ("Error in " ++ (context ++ (": " ++ err.msg)))
  match dumpsErrorInfo info with
  | none => (st1, some "TypeError: Object is not JSON serializable")
  | some s =>
    let st2 := addLog st1 .voice .error ("Error details: " ++ s)
    ({ st2 with metrics :=
        { st2.metrics with errors := st2.metrics.errors ++ [info] } }, none)

/-- Python slicing `s[:200] + "..." if len(s) > 200 else s` applied to the
`user_input` and `bot_response` fields in `log_user_interaction`. -/
def truncate200 (s : String) : String :=
  if s.length > 200 then s.take 200 ++ "..." else s

/-- The `interaction` dict built by `log_user_interaction`. -/
structure Interaction where
  timestamp : ℚ
  ty : String
  user_input : String
  bot_response : String
  session_id : String
  metadata : Option PyDict
deriving DecidableEq

/-- `json.dumps(interaction, indent=2)` — no `default=` hook; raises
exactly when truthy metadata holds a non-serializable value. -/
def dumpsInteraction (i : Interaction) : Option String :=
  let base := "\x22type\x22: \x22" ++ (i.ty ++
    ("\x22, \x22user_input\x22: \x22" ++ (i.user_input ++
    ("\x22, \x22bot_response\x22: \x22" ++ (i.bot_response ++
    ("\x22, \x22session_id\x22: \x22" ++ (i.session_id ++ "\x22")))))))
  match i.metadata with
  | none => some ("\x7b" ++ (base ++ "\x7d"))
  | some d =>
    (dumpsDict false d).map
      (fun s => "\x7b" ++ (base ++ (", \x22metadata\x22: " ++ (s ++ "\x7d"))))

/-- `VoiceDebugLogger.log_user_interaction(interaction_type, user_input,
bot_response, metadata)`: builds the interaction record with both text
fields truncated to 200 characters plus an ellipsis, emits the info line,
then the debug dump.  Returns the built record alongside the state. -/
def log_user_interaction (st : LoggerState) (interaction_type user_input
    bot_response : String) (metadata : Option PyDict) (now : ℚ) :
    LoggerState × Interaction × Option String :=
  let interaction : Interaction :=
    { timestamp := now
      ty := interaction_type
      user_input := truncate200 user_input
      bot_response := truncate200 bot_response
      session_id := st.session_id
      metadata := if truthyDict metadata then metadata else none }
  let st1 := addLog st .voice .info ("User interaction: " ++ interaction_type)
  match dumpsInteraction interaction with
  | none => (st1, interaction, some "TypeError: Object is not JSON serializable")
  | some s =>
    (addLog st1 .voice .debug ("Interaction details: " ++ s), interaction, none)

/-- A `with debug_logger.create_debug_context(operation):` block.
`DebugContext.__enter__` logs the start line; the body runs and either
finishes or raises; `DebugContext.__exit__` logs the completed line on
the clean path, or on the failing path logs the failed line, calls
`log_error(exc_val, operation)` (with `additional_data=None`), and
returns `False` so the original exception propagates.  `tEnd` stands for
the `time.time()` read in `__exit__`.  The second component of the result
is the exception escaping the whole block, if any. -/
def withDebugContext (st : LoggerState) (operation : String)
    (body : LoggerState → LoggerState × Option PyErr) (tEnd : ℚ) :
    LoggerState × Option PyErr :=
  let st1 := addLog st .voice .debug ("Starting: " ++ operation)
  match body st1 with
  | (st2, none) => (addLog st2 .voice .debug ("Completed: " ++ operation), none)
  | (st2, some e) =>
    let st3 := addLog st2 .voice .error ("Failed: " ++ operation)
    match log_error st3 e operation none tEnd with
    | (st4, none) => (st4, some e)
    | (st4, some e2) => (st4, some ⟨"TypeError", e2⟩)

/-- How one run of the orchestrator's try-block can end: the runner
returns, a `KeyboardInterrupt` arrives, or some other exception escapes. -/
inductive RunOutcome where
  | normal
  | interrupted
  | failed (e : PyErr)

/-- The `config` dict assembled at the top of
`CoachAlexVoiceService.run_service` (all values are strings or ints, so
it always serializes). -/
def runConfig (host : String) (port : Int)
    (deepgram_model elevenlabs_voice_id elevenlabs_model : String) : PyDict :=
  [ ("host", .str host), ("port", .int port),
    ("deepgram_model", .str deepgram_model),
    ("elevenlabs_voice_id", .str elevenlabs_voice_id),
    ("elevenlabs_model", .str elevenlabs_model) ]

/-- `CoachAlexVoiceService.run_service`: logs the session start, runs the
body (pipeline construction plus `runner.run(task)`, abstracted as a
state transformer `bodyFn` whose termination mode is `outcome`), and
then: a normal return falls through to the `finally`; a
`KeyboardInterrupt` logs the shutdown info line and is swallowed; any
other exception is recorded via `log_error(e, "Service Runtime",
(host, port))` and re-raised.  The `finally` clause runs
`log_session_end` on every path.  The second component is the exception
escaping `run_service`, if any. -/
def run_service (st : LoggerState) (host : String) (port : Int)
    (deepgram_model elevenlabs_voice_id elevenlabs_model : String)
    (bodyFn : LoggerState → LoggerState) (outcome : RunOutcome)
    (t0 tErr tEnd : ℚ) : LoggerState × Option PyErr :=
  let config := runConfig host port deepgram_model elevenlabs_voice_id
    elevenlabs_model
  match log_session_start st config t0 with
  | (st1, some e) => (st1, some ⟨"TypeError", e⟩)
  | (st1, none) =>
    let st2 := bodyFn st1
    match outcome with
    | .normal => (log_session_end st2 tEnd, none)
    | .interrupted =>
      (log_session_end
        (addLog st2 .voice .info "Received interrupt signal, shutting down...")
        tEnd, none)
    | .failed e =>
      match log_error st2 e "Service Runtime"
          (some [("host", .str host), ("port", .int port)]) tErr with
      | (st3, none) => (log_session_end st3 tEnd, some e)
      | (st3, some e2) => (log_session_end st3 tEnd, some ⟨"TypeError", e2⟩)

/-- One call into the logger, for reasoning about arbitrary interleavings
of the public operations. -/
inductive LogOp where
  | apiCall (service method : String) (duration : ℚ) (success : Bool)
      (details : Option PyDict)
  | wsEvent (event : String) (client_info : Option String) (data : Option PyDict)
  | errEvent (e : PyErr) (context : String) (additional_data : Option PyDict)
      (now : ℚ)
  | sessionStart (config : PyDict) (now : ℚ)
  | sessionEnd (now : ℚ)
  | pipelineEvent (event : String) (data : Option PyDict)
  | userInteraction (interaction_type user_input bot_response : String)
      (metadata : Option PyDict) (now : ℚ)

/-- Effect of one logger call on the logger object.  For a call that
raises, the state keeps the mutations made before the raise (the raised
exception goes to the caller; the logger object itself survives). -/
def applyOp (st : LoggerState) : LogOp → LoggerState
  | .apiCall s m d ok det => (log_api_call st s m d ok det).1
  | .wsEvent e ci d => (log_websocket_event st e ci d).1
  | .errEvent e c ad t => (log_error st e c ad t).1
  | .sessionStart cfg t => (log_session_start st cfg t).1
  | .sessionEnd t => log_session_end st t
  | .pipelineEvent e d => (log_pipeline_event st e d).1
  | .userInteraction ty ui br md t => (log_user_interaction st ty ui br md t).1

/-- Run a sequence of logger calls. -/
def runOps (st : LoggerState) (ops : List LogOp) : LoggerState :=
  ops.foldl applyOp st

/-- Number of log entries written to the api channel. -/
def apiLineCount (logs : List LogLine) : Nat :=
  (logs.filter (fun l => l.channel = Chan.api)).length

/-- Number of performance summaries emitted (each summary block starts
with its unique header line). -/
def summaryCount (logs : List LogLine) : Nat :=
  logs.countP (fun l => l.msg == "Performance Summary:")

/-- Lowercased service names that hit a pre-initialized `_calls` counter
key; any other service name makes `log_api_call` raise `KeyError`. -/
def validService (service : String) : Bool :=
  pyLower service == "deepgram" || pyLower service == "openai" ||
    pyLower service == "elevenlabs"

/-- The per-service counter value stored under a lowercased key. -/
def serviceCounter (m : Metrics) (k : String) : Nat :=
  if k = "deepgram" then m.deepgram_calls
  else if k = "openai" then m.openai_calls
  else if k = "elevenlabs" then m.elevenlabs_calls
  else 0

theorem metrics_addLog (st : LoggerState) (c : Chan) (l : Lvl) (m : String) :
    (addLog st c l m).metrics = st.metrics := rfl

theorem files_addLog (st : LoggerState) (c : Chan) (l : Lvl) (m : String) :
    (addLog st c l m).files = st.files := rfl

theorem session_id_addLog (st : LoggerState) (c : Chan) (l : Lvl) (m : String) :
    (addLog st c l m).session_id = st.session_id := rfl

theorem logs_addLog (st : LoggerState) (c : Chan) (l : Lvl) (m : String) :
    (addLog st c l m).logs = st.logs ++ [⟨c, l, m⟩] := rfl

theorem dumpsVal_default_isSome (v : PyVal) : (dumpsVal true v).isSome := by
  cases v <;> simp [dumpsVal]

theorem dumpsEntries_default_isSome (d : List (String × PyVal)) :
    (dumpsEntries true d).isSome := by
  induction d with
  | nil => simp [dumpsEntries]
  | cons kv rest ih =>
    obtain ⟨k, v⟩ := kv
    have hv := dumpsVal_default_isSome v
    simp only [dumpsEntries]
    cases hval : dumpsVal true v with
    | none => simp [hval] at hv
    | some sv =>
      cases hrest : dumpsEntries true rest with
      | none => simp [hrest] at ih
      | some sr => simp

theorem dumpsDict_default_isSome (d : PyDict) : (dumpsDict true d).isSome := by
  have h := dumpsEntries_default_isSome d
  cases he : dumpsEntries true d with
  | none => rw [he] at h; simp at h
  | some s => simp [dumpsDict, he]

theorem dumpsEntries_isSome_iff (d : List (String × PyVal)) :
    (dumpsEntries false d).isSome = dictSerializable d := by
  induction d with
  | nil => simp [dumpsEntries, dictSerializable]
  | cons kv rest ih =>
    obtain ⟨k, v⟩ := kv
    simp only [dictSerializable] at ih ⊢
    rw [List.all_cons]
    cases v with
    | str s =>
      simp only [dumpsEntries, dumpsVal, serializableVal, Bool.true_and]
      cases hrest : dumpsEntries false rest with
      | none => rw [hrest] at ih; simpa using ih
      | some sr => rw [hrest] at ih; simpa using ih
    | int n =>
      simp only [dumpsEntries, dumpsVal, serializableVal, Bool.true_and]
      cases hrest : dumpsEntries false rest with
      | none => rw [hrest] at ih; simpa using ih
      | some sr => rw [hrest] at ih; simpa using ih
    | nonJson r => simp [dumpsEntries, dumpsVal, serializableVal]

theorem dumpsDict_isSome_iff (d : PyDict) :
    (dumpsDict false d).isSome = dictSerializable d := by
  rw [← dumpsEntries_isSome_iff d]
  cases he : dumpsEntries false d with
  | none => simp [dumpsDict, he]
  | some s => simp [dumpsDict, he]

theorem apiDetailsLogged_ok (st : LoggerState) (details : Option PyDict) :
    (apiDetailsLogged st details).2 = true := by
  cases details with
  | none => rfl
  | some d =>
    simp only [apiDetailsLogged]
    by_cases he : d.isEmpty
    · simp [he]
    · have h := dumpsDict_default_isSome d
      cases hd : dumpsDict true d with
      | none => simp [hd] at h
      | some s => simp [he, hd]

theorem apiDetailsLogged_metrics (st : LoggerState) (details : Option PyDict) :
    (apiDetailsLogged st details).1.metrics = st.metrics := by
  cases details with
  | none => rfl
  | some d =>
    simp only [apiDetailsLogged]
    by_cases he : d.isEmpty
    · simp [he]
    · cases hd : dumpsDict true d with
      | none => simp [he, hd]
      | some s => simp [he, hd, metrics_addLog]

theorem apiDetailsLogged_session_id (st : LoggerState) (details : Option PyDict) :
    (apiDetailsLogged st details).1.session_id = st.session_id := by
  cases details with
  | none => rfl
  | some d =>
    simp only [apiDetailsLogged]
    by_cases he : d.isEmpty
    · simp [he]
    · cases hd : dumpsDict true d with
      | none => simp [he, hd]
      | some s => simp [he, hd, session_id_addLog]

theorem truncate200_length (s : String) : (truncate200 s).length ≤ 203 := by
  rw [truncate200]
  by_cases h : s.length > 200
  · simp only [h, if_true]
    rw [String.length_append, String.take_eq, String.length_mk, List.length_take]
    have h2 : s.length = s.data.length := rfl
    have h3 : "...".length = 3 := rfl
    omega
  · simp only [h, if_false]
    omega

theorem log_user_interaction_record (st : LoggerState)
    (interaction_type user_input bot_response : String)
    (metadata : Option PyDict) (now : ℚ) :
    (log_user_interaction st interaction_type user_input bot_response
        metadata now).2.1 =
      ⟨now, interaction_type, truncate200 user_input, truncate200 bot_response,
        st.session_id, if truthyDict metadata then metadata else none⟩ := by
  rw [log_user_interaction]
  cases h : dumpsInteraction ⟨now, interaction_type, truncate200 user_input,
      truncate200 bot_response, st.session_id,
      if truthyDict metadata then metadata else none⟩ <;>
    simp [h]

/-- C10: `log_user_interaction` stores `user_input` and `bot_response`
unchanged when their length is at most 200 characters, and otherwise
stores exactly the first 200 characters followed by "..."; either way
each stored text field is at most 203 characters long. -/
theorem c10_user_interaction_truncation (st : LoggerState)
    (interaction_type user_input bot_response : String)
    (metadata : Option PyDict) (now : ℚ) :
    (log_user_interaction st interaction_type user_input bot_response
        metadata now).2.1.user_input =
      (if user_input.length > 200 then user_input.take 200 ++ "..."
        else user_input)
    ∧ (log_user_interaction st interaction_type user_input bot_response
        metadata now).2.1.bot_response =
      (if bot_response.length > 200 then bot_response.take 200 ++ "..."
        else bot_response)
    ∧ (log_user_interaction st interaction_type user_input bot_response
        metadata now).2.1.user_input.length ≤ 203
    ∧ (log_user_interaction st interaction_type user_input bot_response
        metadata now).2.1.bot_response.length ≤ 203 := by
  rw [log_user_interaction_record]
  exact ⟨rfl, rfl, truncate200_length user_input, truncate200_length bot_response⟩

/-- C5: `log_websocket_event` increments the websocket connection counter
if and only if the event label is exactly `"connection_established"`;
any other label leaves the counter unchanged, and in every case the event
line is still written to the websocket channel. -/
theorem c5_ws_connection_counter (st : LoggerState) (event : String)
    (client_info : Option String) (data : Option PyDict) :
    (log_websocket_event st event client_info data).1.metrics.websocket_connections =
      (if event = "connection_established" then
        st.metrics.websocket_connections + 1
      else st.metrics.websocket_connections)
    ∧ LogLine.mk .ws .info
        ("WebSocket" ++ (clientTag client_info ++ (": " ++ event)))
        ∈ (log_websocket_event st event client_info data).1.logs := by
  rw [log_websocket_event]
  by_cases ht : truthyDict data
  · have hs := dumpsDict_default_isSome (data.getD [])
    cases hd : dumpsDict true (data.getD []) with
    | none => rw [hd] at hs; simp at hs
    | some s =>
      by_cases he : event = "connection_established" <;>
        simp [ht, hd, he, addLog, metrics_addLog]
  · by_cases he : event = "connection_established" <;>
      simp [ht, he, addLog, metrics_addLog]

theorem log_api_call_metrics (st : LoggerState) (service method : String)
    (duration : ℚ) (success : Bool) (details : Option PyDict) :
    (log_api_call st service method duration success details).1.metrics =
      (match incServiceCounter st.metrics (pyLower service) with
       | none => st.metrics
       | some m1 =>
         let m2 := { m1 with response_times := m1.response_times ++ [duration] }
         if success then
           { m2 with successful_requests := m2.successful_requests + 1 }
         else
           { m2 with failed_requests := m2.failed_requests + 1 }) := by
  rw [log_api_call]
  rcases hsplit : apiDetailsLogged (addLog st .api .info
      (apiMsg service method duration success)) details with ⟨st2, b⟩
  have hb := apiDetailsLogged_ok (addLog st .api .info
      (apiMsg service method duration success)) details
  have hm := apiDetailsLogged_metrics (addLog st .api .info
      (apiMsg service method duration success)) details
  rw [hsplit] at hb hm
  simp only [metrics_addLog] at hm
  subst hb
  simp only [hsplit, hm]
  cases hinc : incServiceCounter st.metrics (pyLower service) <;> simp [hm]

theorem log_api_call_err (st : LoggerState) (service method : String)
    (duration : ℚ) (success : Bool) (details : Option PyDict) :
    (log_api_call st service method duration success details).2 =
      (match incServiceCounter st.metrics (pyLower service) with
       | none => some ("KeyError: " ++ (pyLower service ++ "_calls"))
       | some _ => none) := by
  rw [log_api_call]
  rcases hsplit : apiDetailsLogged (addLog st .api .info
      (apiMsg service method duration success)) details with ⟨st2, b⟩
  have hb := apiDetailsLogged_ok (addLog st .api .info
      (apiMsg service method duration success)) details
  have hm := apiDetailsLogged_metrics (addLog st .api .info
      (apiMsg service method duration success)) details
  rw [hsplit] at hb hm
  simp only [metrics_addLog] at hm
  subst hb
  simp only [hsplit, hm]
  cases hinc : incServiceCounter st.metrics (pyLower service) <;> simp [hm]

/-- C4 counterexample: the claim says every service name is counted
without failing, but `log_api_call` with service `"anthropic"` raises
`KeyError: anthropic_calls`, because the metrics dict only pre-creates
counter keys for deepgram, openai and elevenlabs. -/
theorem c4_counterexample :
    (log_api_call (initLogger "voice_session_0" 0) "anthropic" "chat" 1 true
      none).2 = some "KeyError: anthropic_calls" := by decide

/-- C4 (amended): for a service whose lowercased name is one of the three
pre-initialized counter keys, `log_api_call` succeeds and increments that
counter by one; for any other service name it raises a `KeyError` naming
the missing key and leaves the metrics dict unchanged; and two service
names with the same case-folded form always produce identical metric
updates (they share one counter). -/
theorem c4_amended_service_counter (st : LoggerState)
    (service service2 method : String) (duration : ℚ) (success : Bool)
    (details : Option PyDict) :
    (validService service = true →
      (log_api_call st service method duration success details).2 = none ∧
      serviceCounter
          (log_api_call st service method duration success details).1.metrics
          (pyLower service) =
        serviceCounter st.metrics (pyLower service) + 1)
    ∧ (validService service = false →
      (log_api_call st service method duration success details).2 =
        some ("KeyError: " ++ (pyLower service ++ "_calls")) ∧
      (log_api_call st service method duration success details).1.metrics =
        st.metrics)
    ∧ (pyLower service2 = pyLower service →
      (log_api_call st service2 method duration success details).1.metrics =
        (log_api_call st service method duration success details).1.metrics) := by
  refine ⟨?_, ?_, ?_⟩
  · intro hv
    simp only [validService, Bool.or_eq_true, beq_iff_eq] at hv
    rw [log_api_call_err, log_api_call_metrics]
    rcases hv with (hk | hk) | hk <;> cases success <;>
      simp [incServiceCounter, serviceCounter, hk]
  · intro hv
    simp only [validService, Bool.or_eq_true, beq_iff_eq, not_or,
      Bool.not_eq_true] at hv
    rw [Bool.or_eq_false_iff, Bool.or_eq_false_iff] at hv
    obtain ⟨⟨h1, h2⟩, h3⟩ := hv
    rw [beq_eq_false_iff_ne] at h1 h2 h3
    rw [log_api_call_err, log_api_call_metrics]
    simp [incServiceCounter, h1, h2, h3]
  · intro h12
    rw [log_api_call_metrics, log_api_call_metrics, h12]

/-- C4 witness: concrete instances — `"DeepGram"` succeeds and is counted
under the shared lowercased key, `"anthropic"` raises, and `"DeepGram"`
and `"DEEPGRAM"` update the metrics identically. -/
theorem c4_amended_service_counter_witness :
    (validService "DeepGram" = true ∧
      (log_api_call (initLogger "s" 0) "DeepGram" "stt" 1 true none).2 = none ∧
      serviceCounter
          (log_api_call (initLogger "s" 0) "DeepGram" "stt" 1 true
            none).1.metrics (pyLower "DeepGram") =
        serviceCounter (initLogger "s" 0).metrics (pyLower "DeepGram") + 1)
    ∧ (validService "anthropic" = false ∧
      (log_api_call (initLogger "s" 0) "anthropic" "stt" 1 true none).2 =
        some ("KeyError: " ++ (pyLower "anthropic" ++ "_calls")) ∧
      (log_api_call (initLogger "s" 0) "anthropic" "stt" 1 true
        none).1.metrics = (initLogger "s" 0).metrics)
    ∧ (pyLower "DEEPGRAM" = pyLower "DeepGram" ∧
      (log_api_call (initLogger "s" 0) "DEEPGRAM" "stt" 1 true none).1.metrics =
        (log_api_call (initLogger "s" 0) "DeepGram" "stt" 1 true
          none).1.metrics) :=
  ⟨⟨by decide,
    (c4_amended_service_counter (initLogger "s" 0) "DeepGram" "DEEPGRAM" "stt" 1
      true none).1 (by decide)⟩,
   ⟨by decide,
    (c4_amended_service_counter (initLogger "s" 0) "anthropic" "x" "stt" 1
      true none).2.1 (by decide)⟩,
   ⟨by decide,
    (c4_amended_service_counter (initLogger "s" 0) "DeepGram" "DEEPGRAM" "stt" 1
      true none).2.2 (by decide)⟩⟩

/-- C3 counterexample: the claim says every structured-payload logging
call completes without raising even on a non-serializable payload, but
`log_session_start` serializes its config with a plain
`json.dumps(config, indent=2)` (no fallback) and raises `TypeError` on a
non-serializable value. -/
theorem c3_counterexample :
    (log_session_start (initLogger "voice_session_0" 0)
      [("transport", PyVal.nonJson "WebsocketServerTransport object")] 5).2 =
      some "TypeError: Object is not JSON serializable" := by decide

/-- C3 (amended): the payloads of `log_pipeline_event`,
`log_websocket_event` and `log_api_call` are serialized with a
`default=str` fallback and those calls never raise from serialization
(for `log_api_call`, with a service that has a counter key, even a
non-serializable details payload raises nothing); but `log_session_start`
raises `TypeError` exactly when its config is not serializable, and
`log_error` raises `TypeError` exactly when its `additional_data` is
truthy and not serializable (and then the error record is lost). -/
theorem c3_amended_serialization_fallback (st : LoggerState) (event : String)
    (client_info : Option String) (d : PyDict) (config : PyDict) (er : PyErr)
    (context : String) (ad : PyDict) (method : String) (duration : ℚ)
    (success : Bool) (t : ℚ) :
    (log_pipeline_event st event (some d)).2 = none
    ∧ (log_websocket_event st event client_info (some d)).2 = none
    ∧ (log_api_call st "deepgram" method duration success (some d)).2 = none
    ∧ ((log_session_start st config t).2 = none ↔
        dictSerializable config = true)
    ∧ ((log_error st er context (some ad) t).2 = none ↔
        (ad.isEmpty || dictSerializable ad) = true) := by
  refine ⟨?_, ?_, ?_, ?_, ?_⟩
  · rw [log_pipeline_event]
    by_cases ht : truthyDict (some d)
    · have hs := dumpsDict_default_isSome d
      cases hd : dumpsDict true d with
      | none => rw [hd] at hs; simp at hs
      | some s => simp [ht, hd]
    · simp [ht]
  · rw [log_websocket_event]
    by_cases ht : truthyDict (some d)
    · have hs := dumpsDict_default_isSome d
      cases hd : dumpsDict true d with
      | none => rw [hd] at hs; simp at hs
      | some s =>
        by_cases he : event = "connection_established" <;> simp [ht, hd, he]
    · by_cases he : event = "connection_established" <;> simp [ht, he]
  · rw [log_api_call_err]
    have hk : pyLower "deepgram" = "deepgram" := by decide
    rw [hk]
    simp [incServiceCounter]
  · rw [log_session_start]
    have hiff := dumpsDict_isSome_iff config
    cases hd : dumpsDict false config with
    | none => rw [hd] at hiff; simp at hiff; simp [hd, hiff]
    | some s => rw [hd] at hiff; simp at hiff; simp [hd, hiff]
  · rw [log_error]
    by_cases he : ad.isEmpty
    · have ht : truthyDict (some ad) = false := by
        simp [truthyDict, he]
      simp [mkErrorRecord, ht, dumpsErrorInfo, he]
    · have ht : truthyDict (some ad) = true := by
        simp [truthyDict, he]
      have hiff := dumpsDict_isSome_iff ad
      simp only [mkErrorRecord, ht, if_true]
      cases hd : dumpsDict false ad with
      | none =>
        rw [hd] at hiff; simp at hiff
        simp [dumpsErrorInfo, hd, he, hiff]
      | some s =>
        rw [hd] at hiff; simp at hiff
        simp [dumpsErrorInfo, hd, he, hiff]

/-- C3 witness: concrete instances — a non-serializable payload is
tolerated by the fallback-equipped calls, `log_session_start` both
accepts a serializable config and rejects a non-serializable one, and
`log_error` rejects truthy non-serializable additional data. -/
theorem c3_amended_serialization_fallback_witness :
    (log_pipeline_event (initLogger "s" 0) "Assembling voice pipeline"
      (some [("obj", PyVal.nonJson "Pipeline object")])).2 = none
    ∧ (log_websocket_event (initLogger "s" 0) "connection_established"
      (some "client") (some [("obj", PyVal.nonJson "socket")])).2 = none
    ∧ (log_api_call (initLogger "s" 0) "deepgram" "stt" 1 true
      (some [("obj", PyVal.nonJson "response")])).2 = none
    ∧ ((log_session_start (initLogger "s" 0) [("host", PyVal.str "0.0.0.0")]
        1).2 = none ↔ dictSerializable [("host", PyVal.str "0.0.0.0")] = true)
    ∧ ((log_error (initLogger "s" 0) ⟨"ValueError", "bad"⟩ "ctx"
        (some [("obj", PyVal.nonJson "socket")]) 1).2 = none ↔
        (List.isEmpty [("obj", PyVal.nonJson "socket")] ||
          dictSerializable [("obj", PyVal.nonJson "socket")]) = true) :=
  c3_amended_serialization_fallback (initLogger "s" 0)
    "Assembling voice pipeline" (some "client")
    [("obj", PyVal.nonJson "Pipeline object")] [("host", PyVal.str "0.0.0.0")]
    ⟨"ValueError", "bad"⟩ "ctx" [("obj", PyVal.nonJson "socket")] "stt" 1 true 1

theorem append_data_head (p x : String) (c : Char) (l : List Char)
    (hp : p.data = c :: l) : (p ++ x).data = c :: (l ++ x.data) := by
  rw [String.data_append, hp]; rfl

theorem ne_of_head_char {s t : String} {cs ct : Char} {ls lt : List Char}
    (hs : s.data = cs :: ls) (ht : t.data = ct :: lt) (h : cs ≠ ct) :
    s ≠ t := by
  intro he
  rw [he, ht] at hs
  injection hs with h1 _
  exact h h1.symm

/-- A debug-level line reporting the scoped operation as completed. -/
def isCompletedLine (operation : String) (l : LogLine) : Bool :=
  (l.level == Lvl.debug) && (l.msg == "Completed: " ++ operation)

/-- An error-level line reporting the scoped operation as failed. -/
def isFailedLine (operation : String) (l : LogLine) : Bool :=
  (l.level == Lvl.error) && (l.msg == "Failed: " ++ operation)

theorem log_error_none_ad (st : LoggerState) (err : PyErr) (context : String)
    (now : ℚ) :
    (log_error st err context none now).2 = none
    ∧ (log_error st err context none now).1.metrics.errors =
        st.metrics.errors ++ [mkErrorRecord err context st.session_id now none]
    ∧ (log_error st err context none now).1.metrics.successful_requests =
        st.metrics.successful_requests
    ∧ (log_error st err context none now).1.metrics.failed_requests =
        st.metrics.failed_requests
    ∧ (log_error st err context none now).1.metrics.average_response_time =
        st.metrics.average_response_time
    ∧ (log_error st err context none now).1.metrics.total_requests =
        st.metrics.total_requests
    ∧ (log_error st err context none now).1.files = st.files
    ∧ ∃ s2, (log_error st err context none now).1.logs =
        st.logs ++
          [⟨.voice, .error, "Error in " ++ (context ++ (": " ++ err.msg))⟩,
           ⟨.voice, .error, "Error details: " ++ s2⟩] := by
  have hrec : mkErrorRecord err context st.session_id now none =
      ⟨context, err.ty, err.msg, now, st.session_id, none⟩ := by
    rw [mkErrorRecord]; simp [truthyDict]
  rw [log_error]
  cases hd : dumpsErrorInfo (mkErrorRecord err context st.session_id now none)
    with
  | none => rw [hrec] at hd; simp [dumpsErrorInfo] at hd
  | some s => simp [hd, addLog, hrec]

/-- C2: a scoped timing context (`DebugContext`) around an operation: if
the body finishes cleanly, exactly one debug-level completed line is
written, no failed line appears, the error-record list is unchanged and
nothing escapes; if the body raises, exactly one error-level failed line
is written (the two `log_error` lines are at error level but are not
failed lines), exactly one new error record is appended whose context
field equals the operation label, and the original exception still
propagates to the caller. -/
theorem c2_debug_context_outcome (st : LoggerState) (operation : String)
    (body : LoggerState → LoggerState × Option PyErr) (tEnd : ℚ) :
    ((body (addLog st .voice .debug ("Starting: " ++ operation))).2 = none →
      (withDebugContext st operation body tEnd).2 = none
      ∧ (withDebugContext st operation body tEnd).1.metrics.errors =
          (body (addLog st .voice .debug
            ("Starting: " ++ operation))).1.metrics.errors
      ∧ ((withDebugContext st operation body tEnd).1.logs.countP
            (isCompletedLine operation) =
          (body (addLog st .voice .debug
            ("Starting: " ++ operation))).1.logs.countP
              (isCompletedLine operation) + 1)
      ∧ ((withDebugContext st operation body tEnd).1.logs.countP
            (isFailedLine operation) =
          (body (addLog st .voice .debug
            ("Starting: " ++ operation))).1.logs.countP
              (isFailedLine operation)))
    ∧ (∀ e, (body (addLog st .voice .debug ("Starting: " ++ operation))).2 =
          some e →
      (withDebugContext st operation body tEnd).2 = some e
      ∧ (withDebugContext st operation body tEnd).1.metrics.errors =
          (body (addLog st .voice .debug
            ("Starting: " ++ operation))).1.metrics.errors ++
            [mkErrorRecord e operation
              (body (addLog st .voice .debug
                ("Starting: " ++ operation))).1.session_id tEnd none]
      ∧ (mkErrorRecord e operation
          (body (addLog st .voice .debug
            ("Starting: " ++ operation))).1.session_id tEnd none).context =
          operation
      ∧ ((withDebugContext st operation body tEnd).1.logs.countP
            (isFailedLine operation) =
          (body (addLog st .voice .debug
            ("Starting: " ++ operation))).1.logs.countP
              (isFailedLine operation) + 1)
      ∧ ((withDebugContext st operation body tEnd).1.logs.countP
            (isCompletedLine operation) =
          (body (addLog st .voice .debug
            ("Starting: " ++ operation))).1.logs.countP
              (isCompletedLine operation))) := by
  constructor
  · intro hnone
    rw [withDebugContext]
    rcases hb : body (addLog st .voice .debug ("Starting: " ++ operation))
      with ⟨stb, exc⟩
    rw [hb] at hnone
    simp only at hnone
    subst hnone
    refine ⟨rfl, rfl, ?_, ?_⟩
    · simp [addLog, List.countP_append, isCompletedLine, List.countP_cons]
    · simp [addLog, List.countP_append, List.countP_cons, isFailedLine]
  · intro e he
    rcases hb : body (addLog st .voice .debug ("Starting: " ++ operation))
      with ⟨stb, exc⟩
    rw [hb] at he
    simp only at he
    subst he
    rcases hcall : log_error (addLog stb .voice .error ("Failed: " ++ operation))
      e operation none tEnd with ⟨st4, raised⟩
    have hle := log_error_none_ad
      (addLog stb .voice .error ("Failed: " ++ operation)) e operation tEnd
    rw [hcall] at hle
    obtain ⟨h1, h2, _, _, _, _, _, s2, hlogs⟩ := hle
    simp only at h1 h2 hlogs
    subst h1
    have hw : withDebugContext st operation body tEnd = (st4, some e) := by
      rw [withDebugContext, hb]
      dsimp only
      rw [hcall]
    rw [hw]
    refine ⟨rfl, ?_, rfl, ?_, ?_⟩
    · simp only [h2, addLog, session_id_addLog, metrics_addLog]
    · rw [hlogs]
      have hne1 : ("Error in " ++ (operation ++ (": " ++ e.msg))) ≠
          ("Failed: " ++ operation) :=
        ne_of_head_char (append_data_head "Error in " _ 'E' _ rfl)
          (append_data_head "Failed: " _ 'F' _ rfl) (by decide)
      have hne2 : ("Error details: " ++ s2) ≠ ("Failed: " ++ operation) :=
        ne_of_head_char (append_data_head "Error details: " _ 'E' _ rfl)
          (append_data_head "Failed: " _ 'F' _ rfl) (by decide)
      simp [addLog, List.countP_append, List.countP_cons, isFailedLine,
        hne1, hne2]
    · rw [hlogs]
      simp [addLog, List.countP_append, List.countP_cons, isCompletedLine]

/-- C2 witness: a concrete clean body and a concrete failing body,
exercising both branches of the scoped-context theorem. -/
theorem c2_debug_context_outcome_witness :
    ((withDebugContext (initLogger "s" 0) "Pipeline Creation"
        (fun s => (s, none)) 3).2 = none
      ∧ (withDebugContext (initLogger "s" 0) "Pipeline Creation"
          (fun s => (s, none)) 3).1.metrics.errors =
        ((fun (s : LoggerState) => (s, (none : Option PyErr)))
          (addLog (initLogger "s" 0) .voice .debug
            ("Starting: " ++ "Pipeline Creation"))).1.metrics.errors
      ∧ ((withDebugContext (initLogger "s" 0) "Pipeline Creation"
            (fun s => (s, none)) 3).1.logs.countP
              (isCompletedLine "Pipeline Creation") =
          ((fun (s : LoggerState) => (s, (none : Option PyErr)))
            (addLog (initLogger "s" 0) .voice .debug
              ("Starting: " ++ "Pipeline Creation"))).1.logs.countP
                (isCompletedLine "Pipeline Creation") + 1)
      ∧ ((withDebugContext (initLogger "s" 0) "Pipeline Creation"
            (fun s => (s, none)) 3).1.logs.countP
              (isFailedLine "Pipeline Creation") =
          ((fun (s : LoggerState) => (s, (none : Option PyErr)))
            (addLog (initLogger "s" 0) .voice .debug
              ("Starting: " ++ "Pipeline Creation"))).1.logs.countP
                (isFailedLine "Pipeline Creation")))
    ∧ ((withDebugContext (initLogger "s" 0) "Service Startup"
        (fun s => (s, some ⟨"RuntimeError", "boom"⟩)) 3).2 =
          some ⟨"RuntimeError", "boom"⟩) :=
  ⟨(c2_debug_context_outcome (initLogger "s" 0) "Pipeline Creation"
      (fun s => (s, none)) 3).1 rfl,
   ((c2_debug_context_outcome (initLogger "s" 0) "Service Startup"
      (fun s => (s, some ⟨"RuntimeError", "boom"⟩)) 3).2
      ⟨"RuntimeError", "boom"⟩ rfl).1⟩

/-- Arguments of one `log_api_call` invocation. -/
structure ApiCallArgs where
  service : String
  method : String
  duration : ℚ
  success : Bool
  details : Option PyDict
deriving DecidableEq

/-- A sequence of `log_api_call` invocations on the logger. -/
def runApiCalls (st : LoggerState) (calls : List ApiCallArgs) : LoggerState :=
  calls.foldl
    (fun s c => (log_api_call s c.service c.method c.duration c.success
      c.details).1) st

theorem log_api_call_valid_effect (st : LoggerState) (service method : String)
    (duration : ℚ) (success : Bool) (details : Option PyDict)
    (h : validService service = true) :
    (log_api_call st service method duration success
        details).1.metrics.response_times =
      st.metrics.response_times ++ [duration]
    ∧ (log_api_call st service method duration success
        details).1.metrics.successful_requests +
      (log_api_call st service method duration success
        details).1.metrics.failed_requests =
      st.metrics.successful_requests + st.metrics.failed_requests + 1
    ∧ (log_api_call st service method duration success
        details).1.metrics.average_response_time =
      st.metrics.average_response_time
    ∧ (log_api_call st service method duration success
        details).1.metrics.session_start = st.metrics.session_start := by
  rw [log_api_call_metrics]
  simp only [validService, Bool.or_eq_true, beq_iff_eq] at h
  rcases h with (hk | hk) | hk <;> cases success <;>
    simp [incServiceCounter, hk] <;> omega

theorem runApiCalls_effect (calls : List ApiCallArgs) : ∀ st : LoggerState,
    (∀ c ∈ calls, validService c.service = true) →
    (runApiCalls st calls).metrics.response_times =
      st.metrics.response_times ++ calls.map (fun c => c.duration)
    ∧ (runApiCalls st calls).metrics.successful_requests +
        (runApiCalls st calls).metrics.failed_requests =
      st.metrics.successful_requests + st.metrics.failed_requests + calls.length
    ∧ (runApiCalls st calls).metrics.average_response_time =
        st.metrics.average_response_time
    ∧ (runApiCalls st calls).metrics.session_start =
        st.metrics.session_start := by
  induction calls with
  | nil => intro st _; simp [runApiCalls]
  | cons c rest ih =>
    intro st h
    have hc := log_api_call_valid_effect st c.service c.method c.duration
      c.success c.details (h c (List.mem_cons_self c rest))
    obtain ⟨hc1, hc2, hc3, hc4⟩ := hc
    have hrest := ih
      ((log_api_call st c.service c.method c.duration c.success c.details).1)
      (fun x hx => h x (List.mem_cons_of_mem c hx))
    obtain ⟨h1, h2, h3, h4⟩ := hrest
    have hfold : runApiCalls st (c :: rest) =
        runApiCalls
          ((log_api_call st c.service c.method c.duration c.success
            c.details).1) rest := by
      rw [runApiCalls, runApiCalls, List.foldl_cons]
    rw [hfold]
    refine ⟨?_, ?_, ?_, ?_⟩
    · rw [h1, hc1, List.map_cons, List.append_assoc]; rfl
    · rw [h2, hc2, List.length_cons]; omega
    · rw [h3, hc3]
    · rw [h4, hc4]

theorem log_performance_summary_metrics (st : LoggerState) (now : ℚ) :
    (log_performance_summary st now).metrics =
      (if st.metrics.response_times = [] then st.metrics
       else { st.metrics with average_response_time :=
          st.metrics.response_times.sum /
            (st.metrics.response_times.length : ℚ) }) := rfl

theorem log_performance_summary_response_times (st : LoggerState) (now : ℚ) :
    (log_performance_summary st now).metrics.response_times =
      st.metrics.response_times := by
  rw [log_performance_summary_metrics]
  by_cases h : st.metrics.response_times = [] <;> simp [h]

theorem log_performance_summary_avg (st : LoggerState) (now : ℚ)
    (h : st.metrics.response_times ≠ []) :
    (log_performance_summary st now).metrics.average_response_time =
      st.metrics.response_times.sum /
        (st.metrics.response_times.length : ℚ) := by
  rw [log_performance_summary_metrics]
  simp [h]

theorem log_performance_summary_avg_empty (st : LoggerState) (now : ℚ)
    (h : st.metrics.response_times = []) :
    (log_performance_summary st now).metrics.average_response_time =
      st.metrics.average_response_time := by
  rw [log_performance_summary_metrics]
  simp [h]

/-- C1: after a sequence of N completing `log_api_call` invocations on a
fresh logger, the successful plus failed request counters equal N, the
summary's average response time equals the arithmetic mean of all N
recorded durations (recomputed fresh from the full sample list), and
running the summary twice with no intervening calls yields the same
average. -/
theorem c1_api_counts_and_fresh_average (sid : String) (t0 t1 t2 : ℚ)
    (calls : List ApiCallArgs)
    (h : ∀ c ∈ calls, validService c.service = true) :
    (runApiCalls (initLogger sid t0) calls).metrics.successful_requests +
        (runApiCalls (initLogger sid t0) calls).metrics.failed_requests =
      calls.length
    ∧ (log_performance_summary (runApiCalls (initLogger sid t0) calls)
        t1).metrics.average_response_time =
      (calls.map (fun c => c.duration)).sum /
        ((calls.map (fun c => c.duration)).length : ℚ)
    ∧ (log_performance_summary
        (log_performance_summary (runApiCalls (initLogger sid t0) calls) t1)
        t2).metrics.average_response_time =
      (log_performance_summary (runApiCalls (initLogger sid t0) calls)
        t1).metrics.average_response_time := by
  obtain ⟨h1, h2, h3, _⟩ := runApiCalls_effect calls (initLogger sid t0) h
  have e1 : (initLogger sid t0).metrics.response_times = [] := rfl
  have e2 : (initLogger sid t0).metrics.successful_requests = 0 := rfl
  have e3 : (initLogger sid t0).metrics.failed_requests = 0 := rfl
  have e4 : (initLogger sid t0).metrics.average_response_time = 0 := rfl
  rw [e1, List.nil_append] at h1
  rw [e2, e3] at h2
  rw [e4] at h3
  refine ⟨by omega, ?_, ?_⟩
  · by_cases hemp : (runApiCalls (initLogger sid t0) calls).metrics.response_times = []
    · rw [log_performance_summary_avg_empty _ t1 hemp, h3]
      rw [hemp] at h1
      rw [← h1]
      simp
    · rw [log_performance_summary_avg _ t1 hemp, h1]
  · have hrts1 := log_performance_summary_response_times
      (runApiCalls (initLogger sid t0) calls) t1
    by_cases hemp : (runApiCalls (initLogger sid t0) calls).metrics.response_times = []
    · rw [log_performance_summary_avg_empty _ t2 (by rw [hrts1]; exact hemp)]
    · rw [log_performance_summary_avg _ t2 (by rw [hrts1]; exact hemp), hrts1,
        log_performance_summary_avg _ t1 hemp]

/-- C1 witness: two completing calls (one success, one failure, the
second with a case-folded service name) give counters summing to 2 and a
twice-stable average of 5/4. -/
theorem c1_api_counts_and_fresh_average_witness :
    (∀ c ∈ [ApiCallArgs.mk "deepgram" "transcribe" (1/2) true none,
             ApiCallArgs.mk "OpenAI" "chat" 2 false none],
        validService c.service = true)
    ∧ ((runApiCalls (initLogger "voice_session_1" 0)
          [ApiCallArgs.mk "deepgram" "transcribe" (1/2) true none,
           ApiCallArgs.mk "OpenAI" "chat" 2 false none]).metrics.successful_requests +
        (runApiCalls (initLogger "voice_session_1" 0)
          [ApiCallArgs.mk "deepgram" "transcribe" (1/2) true none,
           ApiCallArgs.mk "OpenAI" "chat" 2 false none]).metrics.failed_requests =
      (List.length [ApiCallArgs.mk "deepgram" "transcribe" (1/2) true none,
           ApiCallArgs.mk "OpenAI" "chat" 2 false none])
      ∧ (log_performance_summary (runApiCalls (initLogger "voice_session_1" 0)
            [ApiCallArgs.mk "deepgram" "transcribe" (1/2) true none,
             ApiCallArgs.mk "OpenAI" "chat" 2 false none])
          5).metrics.average_response_time =
        (List.map (fun c => c.duration)
            [ApiCallArgs.mk "deepgram" "transcribe" (1/2) true none,
             ApiCallArgs.mk "OpenAI" "chat" 2 false none]).sum /
          ((List.map (fun c => c.duration)
            [ApiCallArgs.mk "deepgram" "transcribe" (1/2) true none,
             ApiCallArgs.mk "OpenAI" "chat" 2 false none]).length : ℚ)
      ∧ (log_performance_summary
          (log_performance_summary (runApiCalls (initLogger "voice_session_1" 0)
            [ApiCallArgs.mk "deepgram" "transcribe" (1/2) true none,
             ApiCallArgs.mk "OpenAI" "chat" 2 false none]) 5)
          6).metrics.average_response_time =
        (log_performance_summary (runApiCalls (initLogger "voice_session_1" 0)
            [ApiCallArgs.mk "deepgram" "transcribe" (1/2) true none,
             ApiCallArgs.mk "OpenAI" "chat" 2 false none])
          5).metrics.average_response_time) :=
  ⟨by decide,
   c1_api_counts_and_fresh_average "voice_session_1" 0 5 6
     [ApiCallArgs.mk "deepgram" "transcribe" (1/2) true none,
      ApiCallArgs.mk "OpenAI" "chat" 2 false none] (by decide)⟩

theorem blank_lit_append_ne (p x : String) (c : Char) (l : List Char)
    (hp : p.data = c :: l) (hc : c ≠ 'P') :
    (p ++ x) ≠ "Performance Summary:" :=
  ne_of_head_char (append_data_head p x c l hp) rfl hc

theorem summaryCount_summaryLines (m : Metrics) (d : ℚ) :
    (summaryLines m d).countP (fun l => l.msg == "Performance Summary:") = 1 := by
  have f2 := blank_lit_append_ne "   Session Duration: " (toString d ++ "s")
    ' ' _ rfl (by decide)
  have f3 := blank_lit_append_ne "   Total Requests: "
    (toString m.total_requests) ' ' _ rfl (by decide)
  have f4 := blank_lit_append_ne "   Success Rate: "
    (toString m.successful_requests ++ ("/" ++ toString m.total_requests))
    ' ' _ rfl (by decide)
  have f5 := blank_lit_append_ne "   Average Response Time: "
    (toString m.average_response_time ++ "s") ' ' _ rfl (by decide)
  have f6 := blank_lit_append_ne "   Deepgram Calls: "
    (toString m.deepgram_calls) ' ' _ rfl (by decide)
  have f7 := blank_lit_append_ne "   OpenAI Calls: "
    (toString m.openai_calls) ' ' _ rfl (by decide)
  have f8 := blank_lit_append_ne "   ElevenLabs Calls: "
    (toString m.elevenlabs_calls) ' ' _ rfl (by decide)
  have f9 := blank_lit_append_ne "   WebSocket Connections: "
    (toString m.websocket_connections) ' ' _ rfl (by decide)
  have f10 := blank_lit_append_ne "   Errors: "
    (toString m.errors.length) ' ' _ rfl (by decide)
  simp [summaryLines, List.countP_cons, beq_eq_false_iff_ne, f2, f3, f4, f5,
    f6, f7, f8, f9, f10]

theorem log_session_end_logs (st : LoggerState) (t : ℚ) :
    (log_session_end st t).logs =
      (st.logs ++ [⟨.voice, .info, "Voice session ended after " ++
        (toString (t - st.metrics.session_start) ++ " seconds")⟩]) ++
      summaryLines
        (if st.metrics.response_times = [] then st.metrics
         else { st.metrics with average_response_time :=
            st.metrics.response_times.sum /
              (st.metrics.response_times.length : ℚ) })
        (t - st.metrics.session_start) := rfl

theorem log_session_end_session_id (st : LoggerState) (t : ℚ) :
    (log_session_end st t).session_id = st.session_id := rfl

theorem log_session_end_metrics (st : LoggerState) (t : ℚ) :
    (log_session_end st t).metrics =
      (if st.metrics.response_times = [] then st.metrics
       else { st.metrics with average_response_time :=
          st.metrics.response_times.sum /
            (st.metrics.response_times.length : ℚ) }) := rfl

theorem log_session_end_files (st : LoggerState) (t : ℚ) :
    (log_session_end st t).files =
      writeFile st.files ("metrics_" ++ (st.session_id ++ ".json"))
        ((log_session_end st t).metrics) := rfl

theorem summaryCount_log_session_end (st : LoggerState) (t : ℚ) :
    summaryCount (log_session_end st t).logs = summaryCount st.logs + 1 := by
  have hv := blank_lit_append_ne "Voice session ended after "
    (toString (t - st.metrics.session_start) ++ " seconds") 'V' _ rfl (by decide)
  rw [summaryCount, log_session_end_logs st t, List.countP_append,
    List.countP_append, summaryCount_summaryLines]
  simp [summaryCount, List.countP_cons, beq_eq_false_iff_ne, hv]

theorem lookup_writeFile_self (fs : List (String × Metrics)) (n : String)
    (m : Metrics) : List.lookup n (writeFile fs n m) = some m := by
  simp [writeFile, List.lookup]

theorem writeFile_unique_entry (fs : List (String × Metrics)) (n : String)
    (m : Metrics) :
    ((writeFile fs n m).filter (fun p => p.1 == n)).length = 1 := by
  rw [writeFile]
  rw [List.filter_cons]
  simp only [beq_self_eq_true, if_true]
  rw [List.filter_filter]
  have hpred : ∀ p : String × Metrics,
      ((p.1 == n) && !decide (p.1 = n)) = false := by
    intro p
    by_cases h : p.1 = n <;> simp [h]
  have : fs.filter (fun p => (p.1 == n) && !decide (p.1 = n)) = [] := by
    apply List.filter_eq_nil_iff.mpr
    intro p _
    rw [hpred p]
    exact Bool.false_ne_true
  simp_all

theorem log_session_end_metrics_idem (st : LoggerState) (tA tB : ℚ) :
    (log_session_end (log_session_end st tA) tB).metrics =
      (log_session_end st tA).metrics := by
  rw [log_session_end_metrics (log_session_end st tA) tB,
    log_session_end_metrics st tA]
  by_cases hemp : st.metrics.response_times = []
  · simp [hemp]
  · simp only [hemp, if_false]

/-- C6: calling `log_session_end` twice in succession emits two
performance summaries, but the snapshot file named by the fixed session
id holds exactly one entry whose content is the metrics state of the
final call; the second write overwrites the first and, with no
intervening calls, rewrites identical content (idempotent overwrite, not
append). -/
theorem c6_double_session_end_snapshot (st : LoggerState) (tA tB : ℚ) :
    summaryCount (log_session_end (log_session_end st tA) tB).logs =
      summaryCount st.logs + 2
    ∧ List.lookup ("metrics_" ++ (st.session_id ++ ".json"))
        (log_session_end (log_session_end st tA) tB).files =
      some ((log_session_end (log_session_end st tA) tB).metrics)
    ∧ ((log_session_end (log_session_end st tA) tB).files.filter
        (fun p => p.1 == "metrics_" ++ (st.session_id ++ ".json"))).length = 1
    ∧ List.lookup ("metrics_" ++ (st.session_id ++ ".json"))
        (log_session_end (log_session_end st tA) tB).files =
      List.lookup ("metrics_" ++ (st.session_id ++ ".json"))
        (log_session_end st tA).files := by
  have hsid : (log_session_end st tA).session_id = st.session_id :=
    log_session_end_session_id st tA
  have hfiles2 := log_session_end_files (log_session_end st tA) tB
  rw [hsid] at hfiles2
  refine ⟨?_, ?_, ?_, ?_⟩
  · rw [summaryCount_log_session_end, summaryCount_log_session_end]
  · rw [hfiles2]
    exact lookup_writeFile_self _ _ _
  · rw [hfiles2]
    exact writeFile_unique_entry _ _ _
  · rw [hfiles2, lookup_writeFile_self, log_session_end_files st tA,
      lookup_writeFile_self, log_session_end_metrics_idem]

theorem log_session_start_ok (st : LoggerState) (config : PyDict) (now : ℚ)
    (h : dictSerializable config = true) :
    (log_session_start st config now).2 = none := by
  rw [log_session_start]
  have hiff := dumpsDict_isSome_iff config
  rw [h] at hiff
  cases hd : dumpsDict false config with
  | none => rw [hd] at hiff; simp at hiff
  | some s => simp [hd]

theorem log_session_end_errors (st : LoggerState) (t : ℚ) :
    (log_session_end st t).metrics.errors = st.metrics.errors := by
  rw [log_session_end_metrics]
  by_cases h : st.metrics.response_times = [] <;> simp [h]

theorem summaryCount_addLog (st : LoggerState) (c : Chan) (l : Lvl)
    (m : String) (h : (m == "Performance Summary:") = false) :
    summaryCount (addLog st c l m).logs = summaryCount st.logs := by
  simp [summaryCount, addLog, List.countP_append, List.countP_cons, h]

theorem log_error_effect (st : LoggerState) (err : PyErr) (context : String)
    (ad : Option PyDict) (now : ℚ)
    (h : (dumpsErrorInfo (mkErrorRecord err context st.session_id now
      ad)).isSome = true) :
    (log_error st err context ad now).2 = none
    ∧ (log_error st err context ad now).1.metrics.errors =
        st.metrics.errors ++ [mkErrorRecord err context st.session_id now ad]
    ∧ summaryCount (log_error st err context ad now).1.logs =
        summaryCount st.logs := by
  rw [log_error]
  cases hd : dumpsErrorInfo (mkErrorRecord err context st.session_id now ad)
    with
  | none => rw [hd] at h; simp at h
  | some s =>
    have hne1 := blank_lit_append_ne "Error in "
      (context ++ (": " ++ err.msg)) 'E' _ rfl (by decide)
    have hne2 := blank_lit_append_ne "Error details: " s 'E' _ rfl (by decide)
    simp [hd, addLog, summaryCount, List.countP_append, List.countP_cons,
      beq_eq_false_iff_ne, hne1, hne2]

/-- C7: on every exit path of `run_service` — normal return of the run
loop, a keyboard interrupt, or an unhandled exception — the `finally`
clause runs `log_session_end` exactly once (exactly one more performance
summary than the body produced); an interrupt is swallowed as a clean
termination, a normal return raises nothing, and any other exception is
first recorded as an error record with context `"Service Runtime"` and
then re-raised unchanged after the session end. -/
theorem c7_run_service_finalization (st : LoggerState) (host : String)
    (port : Int) (deepgram_model elevenlabs_voice_id elevenlabs_model : String)
    (bodyFn : LoggerState → LoggerState) (outcome : RunOutcome)
    (t0 tErr tEnd : ℚ) :
    summaryCount (run_service st host port deepgram_model elevenlabs_voice_id
        elevenlabs_model bodyFn outcome t0 tErr tEnd).1.logs =
      summaryCount (bodyFn (log_session_start st
        (runConfig host port deepgram_model elevenlabs_voice_id
          elevenlabs_model) t0).1).logs + 1
    ∧ (run_service st host port deepgram_model elevenlabs_voice_id
        elevenlabs_model bodyFn outcome t0 tErr tEnd).2 =
      (match outcome with
       | .failed e => some e
       | _ => none)
    ∧ (run_service st host port deepgram_model elevenlabs_voice_id
        elevenlabs_model bodyFn outcome t0 tErr tEnd).1.metrics.errors =
      (bodyFn (log_session_start st
        (runConfig host port deepgram_model elevenlabs_voice_id
          elevenlabs_model) t0).1).metrics.errors ++
      (match outcome with
       | .failed e => [mkErrorRecord e "Service Runtime"
          (bodyFn (log_session_start st
            (runConfig host port deepgram_model elevenlabs_voice_id
              elevenlabs_model) t0).1).session_id tErr
          (some [("host", .str host), ("port", .int port)])]
       | _ => []) := by
  have hser : dictSerializable (runConfig host port deepgram_model
      elevenlabs_voice_id elevenlabs_model) = true := by
    simp [runConfig, dictSerializable, serializableVal]
  have hok := log_session_start_ok st (runConfig host port deepgram_model
    elevenlabs_voice_id elevenlabs_model) t0 hser
  rcases hs : log_session_start st (runConfig host port deepgram_model
    elevenlabs_voice_id elevenlabs_model) t0 with ⟨st1, exc⟩
  rw [hs] at hok
  simp only at hok
  subst hok
  have hrun : run_service st host port deepgram_model elevenlabs_voice_id
      elevenlabs_model bodyFn outcome t0 tErr tEnd =
      (match outcome with
       | .normal => (log_session_end (bodyFn st1) tEnd, none)
       | .interrupted =>
         (log_session_end (addLog (bodyFn st1) .voice .info
           "Received interrupt signal, shutting down...") tEnd, none)
       | .failed e =>
         match log_error (bodyFn st1) e "Service Runtime"
             (some [("host", .str host), ("port", .int port)]) tErr with
         | (st3, none) => (log_session_end st3 tEnd, some e)
         | (st3, some e2) =>
           (log_session_end st3 tEnd, some ⟨"TypeError", e2⟩)) := by
    rw [run_service, hs]
  rw [hrun]
  cases outcome with
  | normal =>
    refine ⟨?_, rfl, ?_⟩
    · rw [summaryCount_log_session_end]
    · rw [log_session_end_errors]
      simp
  | interrupted =>
    refine ⟨?_, rfl, ?_⟩
    · rw [summaryCount_log_session_end, summaryCount_addLog _ _ _ _ (by decide)]
    · rw [log_session_end_errors, metrics_addLog]
      simp
  | failed e =>
    have hinfo : (dumpsErrorInfo (mkErrorRecord e "Service Runtime"
        (bodyFn st1).session_id tErr
        (some [("host", .str host), ("port", .int port)]))).isSome = true := by
      have hrec : (mkErrorRecord e "Service Runtime" (bodyFn st1).session_id
          tErr (some [("host", .str host),
            ("port", .int port)])).additional_data =
          some [("host", .str host), ("port", .int port)] := by
        rw [mkErrorRecord]
        simp [truthyDict, List.isEmpty]
      rw [dumpsErrorInfo, hrec]
      have hds : dictSerializable
          [("host", PyVal.str host), ("port", PyVal.int port)] = true := by
        simp [dictSerializable, serializableVal]
      have hsome := dumpsDict_isSome_iff
        [("host", PyVal.str host), ("port", PyVal.int port)]
      rw [hds] at hsome
      cases hdd : dumpsDict false
          [("host", PyVal.str host), ("port", PyVal.int port)] with
      | none => rw [hdd] at hsome; simp at hsome
      | some s => simp [hdd]
    have heff := log_error_effect (bodyFn st1) e "Service Runtime"
      (some [("host", .str host), ("port", .int port)]) tErr hinfo
    obtain ⟨he1, he2, he3⟩ := heff
    rcases hcall : log_error (bodyFn st1) e "Service Runtime"
      (some [("host", .str host), ("port", .int port)]) tErr with ⟨st3, raised⟩
    rw [hcall] at he1 he2 he3
    simp only at he1 he2 he3
    subst he1
    simp only [hcall]
    refine ⟨?_, trivial, ?_⟩
    · rw [summaryCount_log_session_end, he3]
    · rw [log_session_end_errors, he2]

theorem apiLineCount_addLog_ne (st : LoggerState) (c : Chan) (l : Lvl)
    (m : String) (h : c ≠ Chan.api) :
    apiLineCount (addLog st c l m).logs = apiLineCount st.logs := by
  simp [apiLineCount, addLog, List.filter_append, h]

theorem apiLineCount_addLog_api (st : LoggerState) (l : Lvl) (m : String) :
    apiLineCount (addLog st .api l m).logs = apiLineCount st.logs + 1 := by
  simp [apiLineCount, addLog, List.filter_append]

theorem incServiceCounter_preserves (m m' : Metrics) (k : String)
    (h : incServiceCounter m k = some m') :
    m'.total_requests = m.total_requests ∧
    m'.successful_requests = m.successful_requests ∧
    m'.failed_requests = m.failed_requests ∧
    m'.response_times = m.response_times ∧
    m'.average_response_time = m.average_response_time := by
  rw [incServiceCounter] at h
  split_ifs at h <;> simp_all
  · subst h; exact ⟨rfl, rfl, rfl, rfl, rfl⟩
  · subst h; exact ⟨rfl, rfl, rfl, rfl, rfl⟩
  · subst h; exact ⟨rfl, rfl, rfl, rfl, rfl⟩

theorem log_api_call_logs (st : LoggerState) (service method : String)
    (duration : ℚ) (success : Bool) (details : Option PyDict) :
    (log_api_call st service method duration success details).1.logs =
      (apiDetailsLogged (addLog st .api .info
        (apiMsg service method duration success)) details).1.logs := by
  rw [log_api_call]
  rcases hsplit : apiDetailsLogged (addLog st .api .info
      (apiMsg service method duration success)) details with ⟨st2, b⟩
  have hb := apiDetailsLogged_ok (addLog st .api .info
      (apiMsg service method duration success)) details
  rw [hsplit] at hb
  simp only at hb
  subst hb
  simp only [hsplit]
  cases hinc : incServiceCounter st2.metrics (pyLower service) <;> simp

theorem apiDetailsLogged_apiCount_ge (st : LoggerState)
    (details : Option PyDict) :
    apiLineCount st.logs ≤ apiLineCount (apiDetailsLogged st details).1.logs := by
  cases details with
  | none => exact le_refl _
  | some d =>
    by_cases he : d.isEmpty
    · simp [apiDetailsLogged, he]
    · cases hd : dumpsDict true d with
      | none => simp [apiDetailsLogged, he, hd]
      | some s =>
        have hred : (apiDetailsLogged st (some d)).1 =
            addLog st .api .debug ("Details: " ++ s) := by
          simp [apiDetailsLogged, he, hd]
        rw [hred, apiLineCount_addLog_api]
        omega

theorem apiDetailsLogged_files (st : LoggerState) (details : Option PyDict) :
    (apiDetailsLogged st details).1.files = st.files := by
  cases details with
  | none => rfl
  | some d =>
    simp only [apiDetailsLogged]
    by_cases he : d.isEmpty
    · simp [he]
    · cases hd : dumpsDict true d with
      | none => simp [he, hd]
      | some s => simp [he, hd, files_addLog]

theorem log_api_call_files (st : LoggerState) (service method : String)
    (duration : ℚ) (success : Bool) (details : Option PyDict) :
    (log_api_call st service method duration success details).1.files =
      st.files := by
  rw [log_api_call]
  rcases hsplit : apiDetailsLogged (addLog st .api .info
      (apiMsg service method duration success)) details with ⟨st2, b⟩
  have hb := apiDetailsLogged_ok (addLog st .api .info
      (apiMsg service method duration success)) details
  have hf := apiDetailsLogged_files (addLog st .api .info
      (apiMsg service method duration success)) details
  rw [hsplit] at hb hf
  simp only [files_addLog] at hf
  subst hb
  simp only [hsplit]
  cases hinc : incServiceCounter st2.metrics (pyLower service) <;> simp [hf]

theorem log_websocket_event_effects (st : LoggerState) (event : String)
    (client_info : Option String) (data : Option PyDict) :
    (log_websocket_event st event client_info data).1.metrics.total_requests =
      st.metrics.total_requests
    ∧ (log_websocket_event st event client_info
        data).1.metrics.successful_requests = st.metrics.successful_requests
    ∧ (log_websocket_event st event client_info
        data).1.metrics.failed_requests = st.metrics.failed_requests
    ∧ apiLineCount (log_websocket_event st event client_info data).1.logs =
        apiLineCount st.logs
    ∧ (log_websocket_event st event client_info data).1.files = st.files := by
  rw [log_websocket_event]
  generalize ("WebSocket" ++ (clientTag client_info ++ (": " ++ event))) = msg
  have hc1 := apiLineCount_addLog_ne st .ws .info msg (by decide)
  by_cases ht : truthyDict data
  · have hs := dumpsDict_default_isSome (data.getD [])
    cases hd : dumpsDict true (data.getD []) with
    | none => rw [hd] at hs; simp at hs
    | some s =>
      have hc2 := apiLineCount_addLog_ne (addLog st .ws .info msg)
        .ws .debug ("Data: " ++ s) (by decide)
      by_cases he : event = "connection_established" <;>
        simp [ht, hd, he, metrics_addLog, files_addLog, hc1, hc2]
  · by_cases he : event = "connection_established" <;>
      simp [ht, he, metrics_addLog, files_addLog, hc1]

theorem log_pipeline_event_effects (st : LoggerState) (event : String)
    (data : Option PyDict) :
    (log_pipeline_event st event data).1.metrics = st.metrics
    ∧ apiLineCount (log_pipeline_event st event data).1.logs =
        apiLineCount st.logs
    ∧ (log_pipeline_event st event data).1.files = st.files := by
  rw [log_pipeline_event]
  have hc1 := apiLineCount_addLog_ne st .pipeline .info
    ("Pipeline: " ++ event) (by decide)
  by_cases ht : truthyDict data
  · have hs := dumpsDict_default_isSome (data.getD [])
    cases hd : dumpsDict true (data.getD []) with
    | none => rw [hd] at hs; simp at hs
    | some s =>
      have hc2 := apiLineCount_addLog_ne
        (addLog st .pipeline .info ("Pipeline: " ++ event))
        .pipeline .debug ("Data: " ++ s) (by decide)
      simp [ht, hd, metrics_addLog, files_addLog, hc1, hc2]
  · simp [ht, metrics_addLog, files_addLog, hc1]

theorem log_error_effects (st : LoggerState) (err : PyErr) (context : String)
    (additional_data : Option PyDict) (now : ℚ) :
    (log_error st err context additional_data now).1.metrics.total_requests =
      st.metrics.total_requests
    ∧ (log_error st err context additional_data
        now).1.metrics.successful_requests = st.metrics.successful_requests
    ∧ (log_error st err context additional_data
        now).1.metrics.failed_requests = st.metrics.failed_requests
    ∧ apiLineCount (log_error st err context additional_data now).1.logs =
        apiLineCount st.logs
    ∧ (log_error st err context additional_data now).1.files = st.files := by
  rw [log_error]
  have hc1 := apiLineCount_addLog_ne st .voice .error
    ("Error in " ++ (context ++ (": " ++ err.msg))) (by decide)
  cases hd : dumpsErrorInfo
      (mkErrorRecord err context st.session_id now additional_data) with
  | none => simp [hd, metrics_addLog, files_addLog, hc1]
  | some s =>
    have hc2 := apiLineCount_addLog_ne
      (addLog st .voice .error ("Error in " ++ (context ++ (": " ++ err.msg))))
      .voice .error ("Error details: " ++ s) (by decide)
    simp [hd, metrics_addLog, files_addLog, hc1, hc2]

theorem log_session_start_effects (st : LoggerState) (config : PyDict)
    (now : ℚ) :
    (log_session_start st config now).1.metrics.total_requests =
      st.metrics.total_requests
    ∧ (log_session_start st config now).1.metrics.successful_requests =
        st.metrics.successful_requests
    ∧ (log_session_start st config now).1.metrics.failed_requests =
        st.metrics.failed_requests
    ∧ apiLineCount (log_session_start st config now).1.logs =
        apiLineCount st.logs
    ∧ (log_session_start st config now).1.files = st.files := by
  rw [log_session_start]
  have hc1 := apiLineCount_addLog_ne st .voice .info
    ("Starting Coach Alex Voice Session: " ++ st.session_id) (by decide)
  cases hd : dumpsDict false config with
  | none => simp [hd, metrics_addLog, files_addLog, hc1]
  | some s =>
    have hc2 := apiLineCount_addLog_ne
      (addLog st .voice .info
        ("Starting Coach Alex Voice Session: " ++ st.session_id))
      .voice .info ("Configuration: " ++ s) (by decide)
    simp [hd, metrics_addLog, files_addLog, hc1, hc2]

theorem log_user_interaction_effects (st : LoggerState)
    (interaction_type user_input bot_response : String)
    (metadata : Option PyDict) (now : ℚ) :
    (log_user_interaction st interaction_type user_input bot_response metadata
        now).1.metrics = st.metrics
    ∧ apiLineCount (log_user_interaction st interaction_type user_input
        bot_response metadata now).1.logs = apiLineCount st.logs
    ∧ (log_user_interaction st interaction_type user_input bot_response
        metadata now).1.files = st.files := by
  rw [log_user_interaction]
  have hc1 := apiLineCount_addLog_ne st .voice .info
    ("User interaction: " ++ interaction_type) (by decide)
  cases hd : dumpsInteraction ⟨now, interaction_type, truncate200 user_input,
      truncate200 bot_response, st.session_id,
      if truthyDict metadata then metadata else none⟩ with
  | none => simp [hd, metrics_addLog, files_addLog, hc1]
  | some s =>
    have hc2 := apiLineCount_addLog_ne
      (addLog st .voice .info ("User interaction: " ++ interaction_type))
      .voice .debug ("Interaction details: " ++ s) (by decide)
    simp [hd, metrics_addLog, files_addLog, hc1, hc2]

theorem log_session_end_sums (st : LoggerState) (t : ℚ) :
    (log_session_end st t).metrics.total_requests =
      st.metrics.total_requests
    ∧ (log_session_end st t).metrics.successful_requests =
        st.metrics.successful_requests
    ∧ (log_session_end st t).metrics.failed_requests =
        st.metrics.failed_requests := by
  rw [log_session_end_metrics]
  by_cases h : st.metrics.response_times = [] <;> simp [h]

theorem apiLineCount_append (l1 l2 : List LogLine) :
    apiLineCount (l1 ++ l2) = apiLineCount l1 + apiLineCount l2 := by
  simp [apiLineCount, List.filter_append]

theorem apiLineCount_log_session_end (st : LoggerState) (t : ℚ) :
    apiLineCount (log_session_end st t).logs = apiLineCount st.logs := by
  rw [log_session_end_logs, apiLineCount_append, apiLineCount_append]
  have h1 : apiLineCount [(⟨.voice, .info, "Voice session ended after " ++
      (toString (t - st.metrics.session_start) ++ " seconds")⟩ : LogLine)] =
      0 := by
    simp [apiLineCount]
  have h2 : ∀ (m : Metrics) (d : ℚ), apiLineCount (summaryLines m d) = 0 := by
    intro m d
    simp [apiLineCount, summaryLines]
  rw [h1, h2]
  omega

theorem log_api_call_sums (st : LoggerState) (service method : String)
    (duration : ℚ) (success : Bool) (details : Option PyDict) :
    (log_api_call st service method duration success
        details).1.metrics.total_requests = st.metrics.total_requests
    ∧ (log_api_call st service method duration success
        details).1.metrics.successful_requests +
      (log_api_call st service method duration success
        details).1.metrics.failed_requests ≤
      st.metrics.successful_requests + st.metrics.failed_requests + 1
    ∧ (log_api_call st service method duration success
        details).1.metrics.average_response_time =
      st.metrics.average_response_time := by
  rw [log_api_call_metrics]
  cases hinc : incServiceCounter st.metrics (pyLower service) with
  | none => simp
  | some m1 =>
    obtain ⟨ht, hs, hf, _, ha⟩ :=
      incServiceCounter_preserves st.metrics m1 (pyLower service) hinc
    cases success <;> simp [ht, hs, hf, ha] <;> omega

theorem applyOp_step (st : LoggerState) (op : LogOp) :
    (applyOp st op).metrics.total_requests = st.metrics.total_requests
    ∧ (applyOp st op).metrics.successful_requests +
        (applyOp st op).metrics.failed_requests + apiLineCount st.logs ≤
      st.metrics.successful_requests + st.metrics.failed_requests +
        apiLineCount (applyOp st op).logs
    ∧ ((applyOp st op).files = st.files ∨
       ∃ n, (applyOp st op).files =
         writeFile st.files n ((applyOp st op).metrics)) := by
  cases op with
  | apiCall s m d ok det =>
    simp only [applyOp]
    obtain ⟨ht, hsum, _⟩ := log_api_call_sums st s m d ok det
    have hcount : apiLineCount st.logs + 1 ≤
        apiLineCount (log_api_call st s m d ok det).1.logs := by
      rw [log_api_call_logs]
      have hge := apiDetailsLogged_apiCount_ge
        (addLog st .api .info (apiMsg s m d ok)) det
      rw [apiLineCount_addLog_api] at hge
      omega
    exact ⟨ht, by omega, Or.inl (log_api_call_files st s m d ok det)⟩
  | wsEvent e ci dta =>
    simp only [applyOp]
    obtain ⟨ht, hs, hf, hc, hfi⟩ := log_websocket_event_effects st e ci dta
    exact ⟨ht, by omega, Or.inl hfi⟩
  | errEvent e c ad t =>
    simp only [applyOp]
    obtain ⟨ht, hs, hf, hc, hfi⟩ := log_error_effects st e c ad t
    exact ⟨ht, by omega, Or.inl hfi⟩
  | sessionStart cfg t =>
    simp only [applyOp]
    obtain ⟨ht, hs, hf, hc, hfi⟩ := log_session_start_effects st cfg t
    exact ⟨ht, by omega, Or.inl hfi⟩
  | sessionEnd t =>
    simp only [applyOp]
    obtain ⟨ht, hs, hf⟩ := log_session_end_sums st t
    have hc := apiLineCount_log_session_end st t
    refine ⟨ht, by omega, Or.inr ?_⟩
    exact ⟨"metrics_" ++ (st.session_id ++ ".json"), log_session_end_files st t⟩
  | pipelineEvent e dta =>
    simp only [applyOp]
    obtain ⟨hm, hc, hfi⟩ := log_pipeline_event_effects st e dta
    exact ⟨by rw [hm], by rw [hm]; omega, Or.inl hfi⟩
  | userInteraction ty ui br md t =>
    simp only [applyOp]
    obtain ⟨hm, hc, hfi⟩ := log_user_interaction_effects st ty ui br md t
    exact ⟨by rw [hm], by rw [hm]; omega, Or.inl hfi⟩

theorem runOps_request_bound (ops : List LogOp) : ∀ st : LoggerState,
    st.metrics.successful_requests + st.metrics.failed_requests ≤
      apiLineCount st.logs →
    (runOps st ops).metrics.successful_requests +
        (runOps st ops).metrics.failed_requests ≤
      apiLineCount (runOps st ops).logs := by
  induction ops with
  | nil => intro st h; exact h
  | cons op rest ih =>
    intro st h
    have hfold : runOps st (op :: rest) = runOps (applyOp st op) rest := by
      rw [runOps, runOps, List.foldl_cons]
    rw [hfold]
    obtain ⟨_, hstep, _⟩ := applyOp_step st op
    exact ih (applyOp st op) (by omega)

/-- C8: in every state reachable from a fresh logger by any sequence of
logger calls, successful plus failed request counters are at most the
number of api-channel log entries; and the stored average response time
is assigned only by the summary computation (sum of samples over their
count) — `log_api_call` never touches it. -/
theorem c8_request_bound_and_average_assignment (sid : String) (t0 : ℚ)
    (ops : List LogOp) :
    (runOps (initLogger sid t0) ops).metrics.successful_requests +
        (runOps (initLogger sid t0) ops).metrics.failed_requests ≤
      apiLineCount (runOps (initLogger sid t0) ops).logs
    ∧ (∀ (st : LoggerState) (service method : String) (duration : ℚ)
        (success : Bool) (details : Option PyDict),
        (log_api_call st service method duration success
          details).1.metrics.average_response_time =
          st.metrics.average_response_time)
    ∧ (∀ (st : LoggerState) (t : ℚ),
        (log_session_end st t).metrics.average_response_time =
          (if st.metrics.response_times = [] then
            st.metrics.average_response_time
          else st.metrics.response_times.sum /
            (st.metrics.response_times.length : ℚ))) := by
  refine ⟨?_, ?_, ?_⟩
  · exact runOps_request_bound ops (initLogger sid t0) (Nat.le_refl 0)
  · intro st service method duration success details
    exact (log_api_call_sums st service method duration success details).2.2
  · intro st t
    rw [log_session_end_metrics]
    by_cases h : st.metrics.response_times = [] <;> simp [h]

theorem all_filter_of_all {α : Type} (p : α → Bool) (q : α → Bool)
    (l : List α) (h : l.all p = true) : (l.filter q).all p = true := by
  rw [List.all_eq_true] at h ⊢
  intro x hx
  exact h x (List.mem_filter.mp hx).1

theorem runOps_total_zero (ops : List LogOp) : ∀ st : LoggerState,
    st.metrics.total_requests = 0 →
    (st.files.all (fun f => f.2.total_requests == 0)) = true →
    (runOps st ops).metrics.total_requests = 0 ∧
    ((runOps st ops).files.all (fun f => f.2.total_requests == 0)) = true := by
  induction ops with
  | nil => intro st h1 h2; exact ⟨h1, h2⟩
  | cons op rest ih =>
    intro st h1 h2
    have hfold : runOps st (op :: rest) = runOps (applyOp st op) rest := by
      rw [runOps, runOps, List.foldl_cons]
    rw [hfold]
    obtain ⟨htot, _, hfiles⟩ := applyOp_step st op
    refine ih (applyOp st op) (by rw [htot]; exact h1) ?_
    rcases hfiles with hsame | ⟨n, hwrite⟩
    · rw [hsame]; exact h2
    · rw [hwrite, writeFile]
      rw [List.all_cons]
      have hz : ((applyOp st op).metrics.total_requests == 0) = true := by
        rw [htot, h1]; rfl
      rw [hz]
      simp only [Bool.true_and]
      exact all_filter_of_all _ _ _ h2

theorem totalLine_mem_summaryLines (m : Metrics) (d : ℚ)
    (h : m.total_requests = 0) :
    (⟨Chan.perf, Lvl.info, "   Total Requests: 0"⟩ : LogLine) ∈
      summaryLines m d := by
  rw [summaryLines]
  have hline : "   Total Requests: " ++ toString m.total_requests =
      "   Total Requests: 0" := by
    rw [h]; rfl
  rw [hline]
  exact List.mem_cons_of_mem _ (List.mem_cons_of_mem _ (List.mem_cons_self _ _))

/-- C9: no operation of the logger ever increments `total_requests`:
after any sequence of calls it still equals its initial value 0, every
persisted metrics snapshot records `total_requests = 0`, and any summary
emitted from a reachable state contains the line
`"   Total Requests: 0"` no matter how many API calls were recorded. -/
theorem c9_total_requests_stays_zero (sid : String) (t0 : ℚ)
    (ops : List LogOp) :
    (runOps (initLogger sid t0) ops).metrics.total_requests = 0
    ∧ ((runOps (initLogger sid t0) ops).files.all
        (fun f => f.2.total_requests == 0)) = true
    ∧ ∀ t : ℚ, (⟨Chan.perf, Lvl.info, "   Total Requests: 0"⟩ : LogLine) ∈
        (log_session_end (runOps (initLogger sid t0) ops) t).logs := by
  obtain ⟨h1, h2⟩ := runOps_total_zero ops (initLogger sid t0) rfl rfl
  refine ⟨h1, h2, ?_⟩
  intro t
  have hlogs := log_session_end_logs (runOps (initLogger sid t0) ops) t
  rw [← log_session_end_metrics (runOps (initLogger sid t0) ops) t] at hlogs
  rw [hlogs]
  apply List.mem_append_right
  apply totalLine_mem_summaryLines
  exact (log_session_end_sums (runOps (initLogger sid t0) ops) t).1.trans h1
